import Mathlib

/-!
Verification of the film_service_auth user API.

Shallow embedding of `src/api/v1/user.py` (the only source file of the
repository): user signup, login, token refresh, logout, credential update,
login history, and role management.  External collaborators that live in
repository files missing from the source tree (the SQLAlchemy models with
their uniqueness constraints, the flask_security user datastore, the
`is_uuid` checker, the password-hashing utilities, and the JWT validator
callback) are modelled from the spec; each such definition says so in its
doc comment.
-/

namespace FilmAuth

/-- Token type tag: access or refresh (`type` claim of the JWT). -/
inductive TokenType
  | access
  | refresh
deriving DecidableEq, Repr

/-- A decoded JWT as issued by `create_access_token` / `create_refresh_token`:
subject identity, unique token id (jti), type tag, freshness flag,
issued-at and expiry times (seconds). -/
structure Token where
  sub : String
  jti : String
  typ : TokenType
  fresh : Bool
  iat : Nat
  exp : Nat
deriving DecidableEq, Repr

/-- A user row.  Modelled from the spec: the `User` model
(`src/models/users.py`) is not under `src/`; the spec gives it a unique id,
unique login, unique email, a password hash and a set of roles. -/
structure UserRec where
  id : String
  login : String
  email : String
  password : String
  first_name : String
  last_name : String
  roles : List String
deriving DecidableEq, Repr

/-- A role row.  Modelled from the spec: identity and name, many-to-many
with `User` (`src/models/roles.py` is not under `src/`). -/
structure Role where
  id : String
  name : String
deriving DecidableEq, Repr

/-- An authentication (login-history) record.  Modelled from the spec:
user id and origin/user-agent, append-only
(`src/models/authentication.py` is not under `src/`). -/
structure AuthRecord where
  user_id : String
  user_agent : String
deriving DecidableEq, Repr

/-- One entry of the redis blocklist: a token id with the expiry (`ex=`)
it was stored with, in seconds. -/
structure BlockEntry where
  jti : String
  ttl : Nat
deriving DecidableEq, Repr

/-- The mutable state the handlers touch: the relational store (users,
roles, authentication records) and the redis blocklist. -/
structure St where
  users : List UserRec
  roles : List Role
  authRecords : List AuthRecord
  blocklist : List BlockEntry
deriving DecidableEq, Repr

/-- `ACCESS_EXPIRES = timedelta(hours=1)` (user.py line 23), in seconds. -/
def ACCESS_EXPIRES : Nat := 3600

/-- Default refresh-token lifetime of flask_jwt_extended (30 days), in
seconds; the repository does not override it. -/
def REFRESH_EXPIRES : Nat := 2592000

/-- The names bound at module level in `src/api/v1/user.py`: the imported
names (lines 1 to 20), the module-level assignments (lines 23 to 24) and
the Resource classes.  Python resolves a free name inside a handler
against this set at call time. -/
def moduleNames : List String :=
  ["timedelta", "Resource", "request", "hash_password",
   "create_access_token", "create_refresh_token", "jwt_required",
   "get_jwt_identity", "swag_from", "IntegrityError", "db",
   "jwt_redis_blocklist", "User", "Authentication", "Role", "SQLAlchemy",
   "user_datastore", "get_hash", "check_password", "UserSchema",
   "is_uuid", "ACCESS_EXPIRES", "user_schema", "SignUp", "Login",
   "RefreshTokens", "Logout", "ChangeCreds", "LoginHistory", "UserRoles",
   "ChangeUserRoles"]

/-- Modelled from the spec: `get_hash` (`src/utils/security.py`, not under
`src/`) is the password-hashing primitive, a one-way function of the
plaintext; modelled as an injective tagging function. -/
def get_hash (p : String) : String := "pbkdf2." ++ p

/-- Modelled from the spec: `check_password` (`src/utils/security.py`, not
under `src/`) is the constant-time verifier of a plaintext against a
stored hash. -/
def check_password (plain stored : String) : Bool := get_hash plain == stored

/-- A hexadecimal digit. -/
def isHexChar (c : Char) : Bool :=
  c.isDigit || ('a' ≤ c && c ≤ 'f') || ('A' ≤ c && c ≤ 'F')

/-- Split a character list on the dash separator. -/
def splitDash : List Char → List (List Char)
  | [] => [[]]
  | c :: cs =>
    let rest := splitDash cs
    if c == '-' then [] :: rest
    else
      match rest with
      | [] => [[c]]
      | g :: gs => (c :: g) :: gs

/-- Modelled from the spec: `is_uuid` (`src/utils/uuid_checker.py`, not
under `src/`) accepts exactly the well-formed canonical UUID strings
(8-4-4-4-12 hexadecimal groups). -/
def is_uuid (s : String) : Bool :=
  let parts := splitDash s.toList
  parts.length == 5 &&
  parts.map List.length == [8, 4, 4, 4, 12] &&
  parts.all fun p => p.all isHexChar

/-- `create_access_token(identity=..., fresh=...)` of flask_jwt_extended:
mints an access token for the identity.  The library default for `fresh`
is `False`; call sites that omit the argument pass `false` here.  The
fresh jti the library draws is an explicit argument. -/
def create_access_token (identity : String) (fresh : Bool) (jti : String)
    (now : Nat) : Token :=
  { sub := identity, jti := jti, typ := .access, fresh := fresh,
    iat := now, exp := now + ACCESS_EXPIRES }

/-- `create_refresh_token(identity=...)` of flask_jwt_extended: mints a
refresh token for the identity (refresh tokens carry no freshness). -/
def create_refresh_token (identity : String) (jti : String) (now : Nat) :
    Token :=
  { sub := identity, jti := jti, typ := .refresh, fresh := false,
    iat := now, exp := now + REFRESH_EXPIRES }

/-- `user_datastore.find_user(login=...)`: first user with the given
login, if any. -/
def find_user (users : List UserRec) (l : String) : Option UserRec :=
  users.find? fun u => u.login == l

/-- `User.get_by_id` : first user with the given id, if any. -/
def User_get_by_id (users : List UserRec) (uid : String) : Option UserRec :=
  users.find? fun u => u.id == uid

/-- `Role.find_by_id` : first role with the given id, if any. -/
def Role_find_by_id (roles : List Role) (rid : String) : Option Role :=
  roles.find? fun r => r.id == rid

/-- Redis `SET key value EX ttl`: store the token id with the given
expiry, overwriting an existing entry for the same id. -/
def blocklistSet (bl : List BlockEntry) (jti : String) (ttl : Nat) :
    List BlockEntry :=
  if bl.any (fun e => e.jti == jti) then
    bl.map fun e => if e.jti == jti then { jti := jti, ttl := ttl } else e
  else
    bl ++ [{ jti := jti, ttl := ttl }]

/-- Blocklist membership test (the existence check backing the validator's
revocation step). -/
def is_revoked (bl : List BlockEntry) (jti : String) : Bool :=
  bl.any fun e => e.jti == jti

/-- Expiry stored for a token id, if present. -/
def blocklistTtl (bl : List BlockEntry) (jti : String) : Option Nat :=
  (bl.find? fun e => e.jti == jti).map BlockEntry.ttl

/-- Outcome of `validate(token, required_type)`. -/
inductive ValidateResult
  | ok (identity : String)
  | malformed
  | expired
  | wrongScope
  | revoked
deriving DecidableEq, Repr

/-- Modelled from the spec: the token validator (flask_jwt_extended plus
the repository's blocklist-loader callback, not under `src/`).  Spec
section 4.3: (1) signature/structure, (2) expiry, (3) type scope,
(4) blocklist membership, in that order; `sigOk` stands for the outcome
of the cryptographic signature check. -/
def validate (bl : List BlockEntry) (tok : Token) (sigOk : Bool)
    (now : Nat) (required : TokenType) : ValidateResult :=
  if !sigOk then .malformed
  else if tok.exp ≤ now then .expired
  else if tok.typ != required then .wrongScope
  else if is_revoked bl tok.jti then .revoked
  else .ok tok.sub

/-- Result of `SignUp.post` (user.py lines 31 to 88). -/
inductive SignupResult
  | created (login : String)
  | duplicate
  | credentialsRequired
deriving DecidableEq, Repr

/-- Body of a signup request that has the required keys. -/
structure SignupReq where
  login : String
  email : String
  password : String
  first_name : String
  last_name : String
deriving DecidableEq, Repr

/-- `SignUp.post` (user.py lines 78 to 88): hash the password, create the
user, commit; an `IntegrityError` from the store's uniqueness constraints
on login and email (modelled from the spec, the models are not under
`src/`) is answered with the duplicate error and leaves the store
unchanged.  `data = none` models an absent/empty body; `newId` is the id
the datastore assigns. -/
def SignUp_post (st : St) (data : Option SignupReq) (newId : String) :
    SignupResult × St :=
  match data with
  | none => (.credentialsRequired, st)
  | some req =>
    if st.users.any (fun u => u.login == req.login || u.email == req.email)
    then (.duplicate, st)
    else
      (.created req.login,
       { st with users := st.users ++
          [{ id := newId, login := req.login, email := req.email,
             password := get_hash req.password,
             first_name := req.first_name, last_name := req.last_name,
             roles := [] }] })

/-- Result of `Login.post` (user.py lines 96 to 142). -/
inductive LoginResult
  | ok (access refresh : Token)
  | invalidCredentials
  | credentialsRequired
deriving DecidableEq, Repr

/-- Body of a login request that has the `login` and `password` keys,
together with the request's user agent. -/
structure LoginReq where
  login : String
  password : String
  user_agent : String
deriving DecidableEq, Repr

/-- `Login.post` (user.py lines 128 to 142): look the user up by login; on
a password match issue an access token (library default `fresh=False`) and
a refresh token, append the authentication record and commit, returning
the pair; otherwise return the merged invalid-credentials error.  `jtiA`,
`jtiR` are the jtis the library draws and `now` the issue time. -/
def Login_post (st : St) (data : Option LoginReq) (now : Nat)
    (jtiA jtiR : String) : LoginResult × St :=
  match data with
  | none => (.credentialsRequired, st)
  | some req =>
    match find_user st.users req.login with
    | some user =>
      if check_password req.password user.password then
        (.ok (create_access_token user.id false jtiA now)
             (create_refresh_token user.id jtiR now),
         { st with authRecords := st.authRecords ++
            [{ user_id := user.id, user_agent := req.user_agent }] })
      else (.invalidCredentials, st)
    | none => (.invalidCredentials, st)

/-- Result of `RefreshTokens.post` (user.py lines 150 to 190):
`unhandled e` is an exception propagating out of the handler (an HTTP
500), distinct from the written 401 `tokenInvalid` answer. -/
inductive RefreshOutcome
  | ok (access refresh : Token)
  | tokenInvalid
  | unhandled (excName : String)
deriving DecidableEq, Repr

/-- `RefreshTokens.post` (user.py lines 181 to 190): inside `try`, read
the identity of the presented refresh token and mint a new pair
(`fresh=False` explicit); the three comments about blocklisting the old
pair are not code, so the state is returned unchanged.  `tryExc` models an
exception raised by the try body (`none` = normal completion).  The
`except jwt.exceptions.DecodeError` clause is evaluated only when an
exception arrives; resolving the free name `jwt` against the module's
bound names fails (`jwt` is never imported), so the clause itself raises
`NameError` and the original handling is abandoned. -/
def RefreshTokens_post (st : St) (identity : String) (now : Nat)
    (jtiA jtiR : String) (tryExc : Option String) : RefreshOutcome × St :=
  match tryExc with
  | none =>
    ((.ok (create_access_token identity false jtiA now)
          (create_refresh_token identity jtiR now)), st)
  | some e =>
    if moduleNames.contains ("jwt") then
      if e == "DecodeError" then (.tokenInvalid, st) else (.unhandled e, st)
    else (.unhandled ("NameError"), st)

/-- Result of `Logout.delete` (user.py lines 198 to 204). -/
inductive LogoutResult
  | ok
  | unhandled (excName : String)
deriving DecidableEq, Repr

/-- `Logout.delete` (user.py lines 198 to 204): the handler's first
statement evaluates the free name `get_jwt`, which is not among the
module's bound names (only `get_jwt_identity` is imported), so every call
raises `NameError` before the blocklist write is reached and the state is
unchanged.  Were the name resolvable, the jti of the presented access
token would be stored with the fixed expiry `ACCESS_EXPIRES`. -/
def Logout_delete (st : St) (tok : Token) : LogoutResult × St :=
  if moduleNames.contains ("get_jwt") then
    (.ok, { st with blocklist := blocklistSet st.blocklist tok.jti ACCESS_EXPIRES })
  else (.unhandled ("NameError"), st)

/-- The blocklist write of user.py line 201 as written,
`jwt_redis_blocklist.set(jti, "", ex=ACCESS_EXPIRES)`: the entry's expiry
is the constant `ACCESS_EXPIRES`, independent of the token. -/
def logoutBlocklistWrite (bl : List BlockEntry) (jti : String) :
    List BlockEntry :=
  blocklistSet bl jti ACCESS_EXPIRES

/-- `user_datastore.add_role_to_user` (flask_security datastore wrapped by
`src/utils/user_datastore.py`, not under `src/`).  Modelled from the spec:
adding an already-held role must not error and leaves the set unchanged;
otherwise the role is appended. -/
def add_role_to_user (roles : List String) (r : String) : List String :=
  if roles.contains r then roles else roles ++ [r]

/-- `user_datastore.remove_role_from_user` (flask_security datastore, not
under `src/`).  Modelled from the spec: removing an absent role must not
error and leaves the set unchanged; otherwise the role is removed. -/
def remove_role_from_user (roles : List String) (r : String) : List String :=
  if roles.contains r then roles.erase r else roles

/-- Replace the user with the given id (the primary-key update the
session commit performs). -/
def updateUser (users : List UserRec) (uid : String) (u : UserRec) :
    List UserRec :=
  users.map fun v => if v.id == uid then u else v

/-- Result of `ChangeUserRoles.post` / `.delete`
(user.py lines 370 to 461). -/
inductive RoleChangeResult
  | success
  | invalidUuid
  | noUser
  | noRole
deriving DecidableEq, Repr

/-- `ChangeUserRoles.post` (user.py lines 404 to 414): check both path ids
are UUIDs, look up user then role, add the role to the user and commit. -/
def ChangeUserRoles_post (st : St) (user_id role_id : String) :
    RoleChangeResult × St :=
  if !(is_uuid user_id && is_uuid role_id) then (.invalidUuid, st)
  else match User_get_by_id st.users user_id with
  | none => (.noUser, st)
  | some user =>
    match Role_find_by_id st.roles role_id with
    | none => (.noRole, st)
    | some role =>
      let u := { user with roles := add_role_to_user user.roles role.id }
      (.success, { st with users := updateUser st.users user.id u })

/-- `ChangeUserRoles.delete` (user.py lines 451 to 461): same guards, then
remove the role from the user and commit. -/
def ChangeUserRoles_delete (st : St) (user_id role_id : String) :
    RoleChangeResult × St :=
  if !(is_uuid user_id && is_uuid role_id) then (.invalidUuid, st)
  else match User_get_by_id st.users user_id with
  | none => (.noUser, st)
  | some user =>
    match Role_find_by_id st.roles role_id with
    | none => (.noRole, st)
    | some role =>
      let u := { user with roles := remove_role_from_user user.roles role.id }
      (.success, { st with users := updateUser st.users user.id u })

/-- Result of `ChangeCreds.put` (user.py lines 211 to 280). -/
inductive CredsResult
  | ok (updated : UserRec)
  | invalidUuid
  | emptyData
  | noUser
  | duplicate
deriving DecidableEq, Repr

/-- One `setattr(user, key, value)` of the update loop, on the fields the
`User` model carries. -/
def setattrUser (u : UserRec) (key value : String) : UserRec :=
  if key == "id" then { u with id := value }
  else if key == "login" then { u with login := value }
  else if key == "email" then { u with email := value }
  else if key == "password" then { u with password := value }
  else if key == "first_name" then { u with first_name := value }
  else if key == "last_name" then { u with last_name := value }
  else u

/-- `ChangeCreds.put` (user.py lines 263 to 280): reject a malformed UUID,
then an empty body, then an unknown user id; otherwise set each given
field (hashing a new password first) and commit, where the commit raises
`IntegrityError` if the updated login or email collides with another
user (uniqueness modelled from the spec, the models are not under
`src/`), answered with the duplicate error and leaving the store
unchanged. -/
def ChangeCreds_put (st : St) (user_id : String)
    (data : List (String × String)) : CredsResult × St :=
  if !is_uuid user_id then (.invalidUuid, st)
  else if data.isEmpty then (.emptyData, st)
  else match User_get_by_id st.users user_id with
  | none => (.noUser, st)
  | some user =>
    let user' := data.foldl
      (fun u kv =>
        setattrUser u kv.1 (if kv.1 == "password" then get_hash kv.2 else kv.2))
      user
    if st.users.any
        (fun v => v.id != user.id && (v.login == user'.login || v.email == user'.email))
    then (.duplicate, st)
    else (.ok user', { st with users := updateUser st.users user.id user' })

/-- Result of `LoginHistory.get` (user.py lines 287 to 320): the handler
has only the UUID-format guard; an unknown but well-formed id yields a
200 with the (empty) history. -/
inductive HistoryResult
  | ok (records : List AuthRecord)
  | invalidUuid
deriving DecidableEq, Repr

/-- `Authentication.get_login_history` (model not under `src/`).  Modelled
from the spec: the ordered sequence of authentication records of the
user. -/
def get_login_history (records : List AuthRecord) (uid : String) :
    List AuthRecord :=
  records.filter fun r => r.user_id == uid

/-- `LoginHistory.get` (user.py lines 317 to 320): reject a malformed
UUID, otherwise return the user's login history; there is no existence
check on the user. -/
def LoginHistory_get (st : St) (user_id : String) : HistoryResult × St :=
  if !is_uuid user_id then (.invalidUuid, st)
  else (.ok (get_login_history st.authRecords user_id), st)

/-- Result of `UserRoles.get` (user.py lines 327 to 363). -/
inductive RolesViewResult
  | ok (roleIds : List String)
  | invalidUuid
  | noUser
deriving DecidableEq, Repr

/-- `UserRoles.get` (user.py lines 358 to 363): reject a malformed UUID,
then an unknown user id, otherwise return the user's roles. -/
def UserRoles_get (st : St) (user_id : String) : RolesViewResult × St :=
  if !is_uuid user_id then (.invalidUuid, st)
  else match User_get_by_id st.users user_id with
  | none => (.noUser, st)
  | some user => (.ok user.roles, st)

/-! Concrete fixtures used by the witnesses and counterexamples. -/

/-- The empty store. -/
def st0 : St := { users := [], roles := [], authRecords := [], blocklist := [] }

/-- A well-formed UUID naming no row. -/
def zeroUuid : String := "00000000-0000-0000-0000-000000000000"

/-- Sample user id. -/
def aliceId : String := "11111111-1111-1111-1111-111111111111"

/-- Sample role ids. -/
def roleId1 : String := "22222222-2222-2222-2222-222222222222"

/-- A second sample role id. -/
def roleId2 : String := "33333333-3333-3333-3333-333333333333"

/-- Sample user holding one role. -/
def alice : UserRec :=
  { id := aliceId, login := "alice", email := "a@x.com",
    password := get_hash ("pw1"), first_name := "", last_name := "",
    roles := [roleId1] }

/-- Store with the sample user and two roles. -/
def stAlice : St :=
  { users := [alice],
    roles := [{ id := roleId1, name := "admin" },
              { id := roleId2, name := "editor" }],
    authRecords := [], blocklist := [] }

/-- The access token of the pair replaced in the refresh scenario. -/
def oldAccessTok : Token := create_access_token ("u1") false ("a1") 0

/-- The refresh token of the pair replaced in the refresh scenario. -/
def oldRefreshTok : Token := create_refresh_token ("u1") ("r1") 0

/-- A successful refresh call at time 10 for the holder of the old pair. -/
def refreshRun : RefreshOutcome × St :=
  RefreshTokens_post st0 ("u1") 10 ("a2") ("r2") none

/-- A logout call presenting the old access token. -/
def logoutRun : LogoutResult × St := Logout_delete st0 oldAccessTok

/-! Helper lemmas about the blocklist store. -/

/-- After overwriting the entries matching `j`, the first match is the new
entry. -/
theorem find?_map_overwrite (es : List BlockEntry) (j : String) (ttl : Nat)
    (h : es.any (fun e => e.jti == j) = true) :
    ((es.map fun e => if e.jti == j then { jti := j, ttl := ttl } else e).find?
      fun e => e.jti == j) = some { jti := j, ttl := ttl } := by
  induction es with
  | nil => simp at h
  | cons e es ih =>
    by_cases he : (e.jti == j) = true
    · simp only [List.map_cons, if_pos he]
      exact List.find?_cons_of_pos _ (by simp)
    · have h2 : es.any (fun e => e.jti == j) = true := by
        simp only [List.any_cons, he, Bool.false_or] at h
        exact h
      simp only [List.map_cons, if_neg he]
      rw [List.find?_cons_of_neg _ (by simp [he]), ih h2]

/-- The entry stored by `blocklistSet` is the one the existence check
finds. -/
theorem find?_blocklistSet (bl : List BlockEntry) (j : String) (ttl : Nat) :
    ((blocklistSet bl j ttl).find? fun e => e.jti == j)
      = some { jti := j, ttl := ttl } := by
  unfold blocklistSet
  by_cases h : bl.any (fun e => e.jti == j) = true
  · rw [if_pos h]
    exact find?_map_overwrite bl j ttl h
  · rw [if_neg h]
    have hnone : (bl.find? fun e => e.jti == j) = none := by
      rw [List.find?_eq_none]
      intro x hx hpx
      exact h (List.any_eq_true.mpr ⟨x, hx, hpx⟩)
    rw [List.find?_append, hnone]
    simp [List.find?]

/-- The expiry stored by `blocklistSet` for the written id. -/
theorem blocklistTtl_set (bl : List BlockEntry) (j : String) (ttl : Nat) :
    blocklistTtl (blocklistSet bl j ttl) j = some ttl := by
  unfold blocklistTtl
  rw [find?_blocklistSet]
  rfl

/-! The claims. -/

/-- C1: the claim says a successful refresh revokes the old refresh and
access jtis, so that validating a replaced token no longer succeeds.  The
code (user.py lines 181 to 188) only mints the new pair; the blocklist
lines exist as comments, so the state is unchanged and both replaced
tokens still validate afterwards.  Evaluation at the failing input: empty
blocklist, old pair issued at time 0, refresh at time 10. -/
theorem c1_refresh_revokes_nothing :
    refreshRun.2 = st0 ∧
    validate refreshRun.2.blocklist oldAccessTok true 10 .access
      = .ok ("u1") ∧
    validate refreshRun.2.blocklist oldRefreshTok true 10 .refresh
      = .ok ("u1") := by decide

/-- C2: the claim says logout marks the presented access token's jti
revoked so that validating it yields `Revoked`.  The handler's first
statement (user.py line 200) evaluates the free name `get_jwt`, which the
module never imports (lines 5 to 6 import only `get_jwt_identity`), so
every logout raises `NameError` before the blocklist write on line 201:
the blocklist is unchanged and the token still validates.  Evaluation at
the failing input: empty blocklist, the sample access token. -/
theorem c2_logout_raises_name_error :
    logoutRun = (.unhandled ("NameError"), st0) ∧
    validate logoutRun.2.blocklist oldAccessTok true 10 .access
      = .ok ("u1") := by decide

/-- C5 counterexample: the claim says the blocklist entry's time-to-live
equals the token's remaining validity at revocation, not a fixed
constant.  For the sample access token (issued at 0, expiry 3600) revoked
at time 1800, the write of user.py line 201 stores the fixed expiry 3600
while the remaining validity is 1800. -/
theorem c5_ttl_counterexample :
    blocklistTtl (logoutBlocklistWrite [] ("a1")) ("a1") = some 3600 ∧
    oldAccessTok.exp - 1800 = 1800 ∧
    (3600 : Nat) ≠ 1800 := by decide

/-- C5 amended: the blocklist write of logout stores every entry with the
fixed expiry `ACCESS_EXPIRES` (one hour, the full access-token lifetime),
independent of the revoked token's remaining validity. -/
theorem c5_ttl_is_fixed_constant (bl : List BlockEntry) (jti : String) :
    blocklistTtl (logoutBlocklistWrite bl jti) jti = some ACCESS_EXPIRES := by
  unfold logoutBlocklistWrite
  exact blocklistTtl_set bl jti ACCESS_EXPIRES

/-- C10: when the try body of the refresh handler raises any exception,
evaluating the except clause `jwt.exceptions.DecodeError` (user.py line
189) resolves the free name `jwt`, which the module never binds, so the
clause raises `NameError`: the handler never returns the 401
`tokenInvalid` answer. -/
theorem c10_refresh_error_branch_unreachable (st : St) (identity : String)
    (now : Nat) (jtiA jtiR e : String) :
    RefreshTokens_post st identity now jtiA jtiR (some e)
      = (.unhandled ("NameError"), st) ∧
    (RefreshTokens_post st identity now jtiA jtiR (some e)).1
      ≠ .tokenInvalid := by
  have hjwt : ¬ (("jwt" : String) ∈ moduleNames) := by decide
  refine ⟨?_, ?_⟩ <;> simp [RefreshTokens_post, hjwt]

/-- C3: a login request naming a non-existent login and one naming an
existing login with a wrong password produce the identical
invalid-credentials outcome with the store unchanged (user.py lines 128
to 142 merge both failures into one answer), so the response reveals
nothing about whether the login exists. -/
theorem c3_login_no_user_enumeration (st : St) (r1 r2 : LoginReq)
    (now1 now2 : Nat) (jA1 jR1 jA2 jR2 : String) (u : UserRec)
    (h1 : find_user st.users r1.login = none)
    (h2 : find_user st.users r2.login = some u)
    (h3 : check_password r2.password u.password = false) :
    Login_post st (some r1) now1 jA1 jR1 = Login_post st (some r2) now2 jA2 jR2 ∧
    Login_post st (some r1) now1 jA1 jR1 = (.invalidCredentials, st) := by
  have e1 : Login_post st (some r1) now1 jA1 jR1 = (.invalidCredentials, st) := by
    simp [Login_post, h1]
  have e2 : Login_post st (some r2) now2 jA2 jR2 = (.invalidCredentials, st) := by
    simp [Login_post, h2, h3]
  exact ⟨e1.trans e2.symm, e1⟩

/-- C3 witness: unknown login `bob` versus known login `alice` with a
wrong password, over the sample store. -/
theorem c3_witness :
    Login_post stAlice
        (some { login := "bob", password := "x", user_agent := "ua" })
        0 ("a1") ("r1")
      = Login_post stAlice
          (some { login := "alice", password := "wrong", user_agent := "ub" })
          5 ("a2") ("r2") ∧
    Login_post stAlice
        (some { login := "bob", password := "x", user_agent := "ua" })
        0 ("a1") ("r1")
      = (.invalidCredentials, stAlice) :=
  c3_login_no_user_enumeration stAlice
    { login := "bob", password := "x", user_agent := "ua" }
    { login := "alice", password := "wrong", user_agent := "ub" }
    0 5 ("a1") ("r1") ("a2") ("r2") alice
    (by decide) (by decide) (by decide)

/-- Sample signup request. -/
def sreq1 : SignupReq :=
  { login := "alice", email := "a@x.com", password := "pw1",
    first_name := "", last_name := "" }

/-- A second signup request reusing the first one's login. -/
def sreq2 : SignupReq :=
  { login := "alice", email := "b@x.com", password := "pw2",
    first_name := "", last_name := "" }

/-- C4: a valid signup with unused login and email succeeds, and a second
signup reusing that login or email fails with the duplicate error
(user.py lines 78 to 88, the `IntegrityError` branch) and returns the
store exactly as it was after the first signup: no second record is
created. -/
theorem c4_duplicate_signup_rejected (st : St) (r1 r2 : SignupReq)
    (id1 id2 : String)
    (hfree : (st.users.any fun u => u.login == r1.login || u.email == r1.email)
      = false)
    (hdup : r2.login = r1.login ∨ r2.email = r1.email) :
    (SignUp_post st (some r1) id1).1 = .created r1.login ∧
    SignUp_post (SignUp_post st (some r1) id1).2 (some r2) id2
      = (.duplicate, (SignUp_post st (some r1) id1).2) := by
  have hs1 : SignUp_post st (some r1) id1 =
      (.created r1.login,
       { st with users := st.users ++
          [{ id := id1, login := r1.login, email := r1.email,
             password := get_hash r1.password, first_name := r1.first_name,
             last_name := r1.last_name, roles := [] }] }) := by
    simp [SignUp_post, hfree]
  refine ⟨by rw [hs1], ?_⟩
  have hmem : ∃ v ∈ (SignUp_post st (some r1) id1).2.users,
      (v.login == r2.login || v.email == r2.email) = true := by
    rw [hs1]
    refine ⟨_, List.mem_append_right _ (List.mem_singleton_self _), ?_⟩
    rcases hdup with h | h
    · simp [h]
    · simp [h]
  have hany2 : ((SignUp_post st (some r1) id1).2.users.any
      fun v => v.login == r2.login || v.email == r2.email) = true :=
    List.any_eq_true.mpr hmem
  generalize hg : (SignUp_post st (some r1) id1).2 = st1 at hany2 ⊢
  simp [SignUp_post, hany2]

/-- C4 witness: signing `alice` up over the empty store and then signing
up again with the same login. -/
theorem c4_witness :
    (SignUp_post st0 (some sreq1) aliceId).1 = .created sreq1.login ∧
    SignUp_post (SignUp_post st0 (some sreq1) aliceId).2 (some sreq2) zeroUuid
      = (.duplicate, (SignUp_post st0 (some sreq1) aliceId).2) :=
  c4_duplicate_signup_rejected st0 sreq1 sreq2 aliceId zeroUuid
    (by decide) (Or.inl rfl)

/-- Sample login request matching the sample user's password. -/
def lreqAlice : LoginReq :=
  { login := "alice", password := "pw1", user_agent := "ua" }

/-- The access token the sample login issues. -/
def tokA1 : Token :=
  { sub := aliceId, jti := "a1", typ := .access, fresh := false,
    iat := 0, exp := 3600 }

/-- The refresh token the sample login issues. -/
def tokR1 : Token :=
  { sub := aliceId, jti := "r1", typ := .refresh, fresh := false,
    iat := 0, exp := 2592000 }

/-- The access token the sample refresh issues. -/
def tokA2 : Token :=
  { sub := aliceId, jti := "a2", typ := .access, fresh := false,
    iat := 0, exp := 3600 }

/-- The refresh token the sample refresh issues. -/
def tokR2 : Token :=
  { sub := aliceId, jti := "r2", typ := .refresh, fresh := false,
    iat := 0, exp := 2592000 }

/-- C6 counterexample: the claim says login-issued access tokens carry a
freshness flag differing from refresh-issued ones.  Login (user.py line
135) omits the `fresh` argument, so the library default `False` applies,
and refresh (line 183) passes `fresh=False` explicitly: for the concrete
scenario below both access tokens carry the same flag. -/
theorem c6_fresh_flag_counterexample :
    (Login_post stAlice (some lreqAlice) 0 ("a1") ("r1")).1 = .ok tokA1 tokR1 ∧
    (RefreshTokens_post stAlice aliceId 0 ("a2") ("r2") none).1
      = .ok tokA2 tokR2 ∧
    tokA1.fresh = tokA2.fresh := by decide

/-- C6 amended: every access token issued by login and every access token
issued by refresh carries `fresh = false`; the freshness flag does not
distinguish the two issuance paths. -/
theorem c6_both_paths_not_fresh (st st2 : St) (data : Option LoginReq)
    (now now2 : Nat) (jA jR jA2 jR2 : String) (identity : String)
    (a r a2 r2 : Token)
    (h1 : (Login_post st data now jA jR).1 = .ok a r)
    (h2 : (RefreshTokens_post st2 identity now2 jA2 jR2 none).1 = .ok a2 r2) :
    a.fresh = false ∧ a2.fresh = false ∧ a.fresh = a2.fresh := by
  have ha : a.fresh = false := by
    match data with
    | none => simp [Login_post] at h1
    | some req =>
      simp only [Login_post] at h1
      cases hf : find_user st.users req.login with
      | none => rw [hf] at h1; simp at h1
      | some u =>
        rw [hf] at h1
        by_cases hc : check_password req.password u.password = true
        · simp [hc] at h1
          rw [← h1.1]
          rfl
        · simp [hc] at h1
  have ha2 : a2.fresh = false := by
    simp only [RefreshTokens_post] at h2
    simp at h2
    rw [← h2.1]
    rfl
  exact ⟨ha, ha2, ha.trans ha2.symm⟩

/-- C6 amended witness: the sample login and refresh calls. -/
theorem c6_witness :
    tokA1.fresh = false ∧ tokA2.fresh = false ∧ tokA1.fresh = tokA2.fresh :=
  c6_both_paths_not_fresh stAlice stAlice (some lreqAlice) 0 0
    ("a1") ("r1") ("a2") ("r2") aliceId tokA1 tokR1 tokA2 tokR2
    (by decide) (by decide)

/-- C8: a login appends an authentication record if and only if it
returns an access/refresh pair, in the same committed update (user.py
lines 134 to 142: the record is added and committed in the same success
branch that returns the pair), and the appended record is exactly the
identified user with the request's user agent. -/
theorem c8_login_record_iff_pair (st : St) (data : Option LoginReq)
    (now : Nat) (jA jR : String) :
    ((∃ a r, (Login_post st data now jA jR).1 = .ok a r) ↔
      (Login_post st data now jA jR).2.authRecords ≠ st.authRecords) ∧
    (∀ a r, (Login_post st data now jA jR).1 = .ok a r →
      ∃ req u, data = some req ∧ find_user st.users req.login = some u ∧
        (Login_post st data now jA jR).2.authRecords
          = st.authRecords ++ [{ user_id := u.id, user_agent := req.user_agent }]) := by
  match data with
  | none => simp [Login_post]
  | some req =>
    cases hf : find_user st.users req.login with
    | none => simp [Login_post, hf]
    | some u =>
      by_cases hc : check_password req.password u.password = true
      · constructor
        · constructor
          · intro _
            simp only [Login_post, hf, hc, if_true]
            intro h
            have hlen := congrArg List.length h
            simp at hlen
          · intro _
            refine ⟨create_access_token u.id false jA now,
                    create_refresh_token u.id jR now, ?_⟩
            simp [Login_post, hf, hc]
        · intro a r _
          exact ⟨req, u, rfl, hf, by simp [Login_post, hf, hc]⟩
      · simp [Login_post, hf, hc]

/-- C8 witness: the sample login appends exactly one record for the
sample user. -/
theorem c8_witness :
    ∃ req u, (some lreqAlice : Option LoginReq) = some req ∧
      find_user stAlice.users req.login = some u ∧
      (Login_post stAlice (some lreqAlice) 0 ("a1") ("r1")).2.authRecords
        = stAlice.authRecords
            ++ [{ user_id := u.id, user_agent := req.user_agent }] :=
  (c8_login_record_iff_pair stAlice (some lreqAlice) 0 ("a1") ("r1")).2
    tokA1 tokR1 (by decide)

/-- Writing a user back unchanged leaves the table unchanged, provided
every row carrying the user's id is that user (the primary-key
uniqueness of the store). -/
theorem updateUser_self (users : List UserRec) (u : UserRec)
    (hagree : ∀ v ∈ users, v.id = u.id → v = u) :
    updateUser users u.id u = users := by
  unfold updateUser
  induction users with
  | nil => rfl
  | cons v vs ih =>
    have hv : (if v.id == u.id then u else v) = v := by
      cases hb : v.id == u.id with
      | false => simp [hb]
      | true =>
        simp only [if_true]
        exact (hagree v (List.mem_cons_self v vs) (eq_of_beq hb)).symm
    simp only [List.map_cons, hv]
    rw [ih fun w hw hid => hagree w (List.mem_cons_of_mem v hw) hid]

/-- C7: with the guards satisfied, adding a role the user already holds
and removing a role the user does not hold both answer success and leave
the store unchanged (user.py lines 404 to 414 and 451 to 461 commit the
datastore mutation and answer success in every guarded case), and adding
a role twice yields the same role set as adding it once. -/
theorem c7_role_mutation_idempotent (st : St) (uid rid rid2 : String)
    (u : UserRec) (ro ro2 : Role)
    (hu : is_uuid uid = true) (hr : is_uuid rid = true)
    (hr2 : is_uuid rid2 = true)
    (hfind : User_get_by_id st.users uid = some u)
    (hro : Role_find_by_id st.roles rid = some ro)
    (hro2 : Role_find_by_id st.roles rid2 = some ro2)
    (hheld : u.roles.contains ro.id = true)
    (habsent : u.roles.contains ro2.id = false)
    (hagree : ∀ v ∈ st.users, v.id = u.id → v = u) :
    ChangeUserRoles_post st uid rid = (.success, st) ∧
    ChangeUserRoles_delete st uid rid2 = (.success, st) ∧
    add_role_to_user (add_role_to_user u.roles ro2.id) ro2.id
      = add_role_to_user u.roles ro2.id := by
  have hupd : updateUser st.users u.id u = st.users := updateUser_self st.users u hagree
  have hheldm : ro.id ∈ u.roles := by simpa using hheld
  have habsentm : ro2.id ∉ u.roles := by simpa using habsent
  refine ⟨?_, ?_, ?_⟩
  · have hadd : add_role_to_user u.roles ro.id = u.roles := by
      simp [add_role_to_user, hheldm]
    simp only [ChangeUserRoles_post, hu, hr, Bool.and_self, Bool.not_true,
      Bool.false_eq_true, if_false, hfind, hro, hadd]
    rw [show ({ u with roles := u.roles } : UserRec) = u from rfl, hupd]
  · have hrem : remove_role_from_user u.roles ro2.id = u.roles := by
      simp [remove_role_from_user, habsentm]
    simp only [ChangeUserRoles_delete, hu, hr2, Bool.and_self, Bool.not_true,
      Bool.false_eq_true, if_false, hfind, hro2, hrem]
    rw [show ({ u with roles := u.roles } : UserRec) = u from rfl, hupd]
  · simp [add_role_to_user, habsentm]

/-- C7 witness: the sample user holds `roleId1` and not `roleId2`; adding
the held role and removing the absent one both leave the sample store
unchanged. -/
theorem c7_witness :
    ChangeUserRoles_post stAlice aliceId roleId1 = (.success, stAlice) ∧
    ChangeUserRoles_delete stAlice aliceId roleId2 = (.success, stAlice) ∧
    add_role_to_user (add_role_to_user alice.roles roleId2) roleId2
      = add_role_to_user alice.roles roleId2 :=
  c7_role_mutation_idempotent stAlice aliceId roleId1 roleId2 alice
    { id := roleId1, name := "admin" } { id := roleId2, name := "editor" }
    (by decide) (by decide) (by decide) (by decide) (by decide) (by decide)
    (by decide) (by decide) (by decide)

/-- C9 counterexample: the claim says every operation taking a user id
rejects a well-formed identifier naming no existing user with a
not-found error.  `LoginHistory.get` (user.py lines 317 to 320) has no
existence check: for the well-formed `zeroUuid` over the empty store it
answers success with the empty history (its result type has no not-found
outcome at all). -/
theorem c9_history_not_found_counterexample :
    is_uuid zeroUuid = true ∧
    User_get_by_id st0.users zeroUuid = none ∧
    LoginHistory_get st0 zeroUuid = (.ok [], st0) := by decide

/-- C9 amended: every listed operation rejects a malformed identifier
with the invalid-identifier error and leaves the store unchanged;
credential update, user-roles view and role add/remove also reject a
well-formed identifier naming no user (or no role) with the not-found
error, store unchanged; login history instead answers success with the
(possibly empty) stored history for any well-formed identifier, store
unchanged. -/
theorem c9_identifier_guards (st : St) (bad good uid2 : String)
    (u : UserRec) (data : List (String × String))
    (hbad : is_uuid bad = false)
    (hgood : is_uuid good = true)
    (hnouser : User_get_by_id st.users good = none)
    (hnorole : Role_find_by_id st.roles good = none)
    (hdata : data.isEmpty = false)
    (huid2 : is_uuid uid2 = true)
    (hu2 : User_get_by_id st.users uid2 = some u) :
    ChangeCreds_put st bad data = (.invalidUuid, st) ∧
    LoginHistory_get st bad = (.invalidUuid, st) ∧
    UserRoles_get st bad = (.invalidUuid, st) ∧
    ChangeUserRoles_post st bad good = (.invalidUuid, st) ∧
    ChangeUserRoles_delete st bad good = (.invalidUuid, st) ∧
    ChangeUserRoles_post st uid2 bad = (.invalidUuid, st) ∧
    ChangeCreds_put st good data = (.noUser, st) ∧
    UserRoles_get st good = (.noUser, st) ∧
    ChangeUserRoles_post st good good = (.noUser, st) ∧
    ChangeUserRoles_delete st good good = (.noUser, st) ∧
    ChangeUserRoles_post st uid2 good = (.noRole, st) ∧
    ChangeUserRoles_delete st uid2 good = (.noRole, st) ∧
    LoginHistory_get st good
      = (.ok (get_login_history st.authRecords good), st) := by
  refine ⟨?_, ?_, ?_, ?_, ?_, ?_, ?_, ?_, ?_, ?_, ?_, ?_, ?_⟩ <;>
    simp [ChangeCreds_put, LoginHistory_get, UserRoles_get,
      ChangeUserRoles_post, ChangeUserRoles_delete,
      hbad, hgood, hnouser, hnorole, hdata, huid2, hu2]

/-- C9 amended witness: the malformed id `xyz` and the unknown
well-formed `zeroUuid`, over the sample store. -/
theorem c9_witness :
    ChangeCreds_put stAlice ("xyz") [(("first_name"), ("Bob"))]
      = (.invalidUuid, stAlice) ∧
    LoginHistory_get stAlice ("xyz") = (.invalidUuid, stAlice) ∧
    UserRoles_get stAlice ("xyz") = (.invalidUuid, stAlice) ∧
    ChangeUserRoles_post stAlice ("xyz") zeroUuid = (.invalidUuid, stAlice) ∧
    ChangeUserRoles_delete stAlice ("xyz") zeroUuid = (.invalidUuid, stAlice) ∧
    ChangeUserRoles_post stAlice aliceId ("xyz") = (.invalidUuid, stAlice) ∧
    ChangeCreds_put stAlice zeroUuid [(("first_name"), ("Bob"))]
      = (.noUser, stAlice) ∧
    UserRoles_get stAlice zeroUuid = (.noUser, stAlice) ∧
    ChangeUserRoles_post stAlice zeroUuid zeroUuid = (.noUser, stAlice) ∧
    ChangeUserRoles_delete stAlice zeroUuid zeroUuid = (.noUser, stAlice) ∧
    ChangeUserRoles_post stAlice aliceId zeroUuid = (.noRole, stAlice) ∧
    ChangeUserRoles_delete stAlice aliceId zeroUuid = (.noRole, stAlice) ∧
    LoginHistory_get stAlice zeroUuid
      = (.ok (get_login_history stAlice.authRecords zeroUuid), stAlice) :=
  c9_identifier_guards stAlice ("xyz") zeroUuid aliceId alice
    [(("first_name"), ("Bob"))]
    (by decide) (by decide) (by decide) (by decide) (by decide) (by decide)
    (by decide)

end FilmAuth
